import Mathlib

/-!
Shallow embedding of src/deploy.py.

The script is a linear sequence of external-command invocations
(subprocess.run) interleaved with prints, parameterized by command-line
arguments.  We model one invocation of the script as a function from the
parsed arguments and an environment (the outcomes of the external commands
it runs) to the trace of observable events (prints and issued commands)
together with an optional unhandled Python fault.
-/

/-- Outcome of one external command invocation: exit status and captured
standard output and standard error, mirroring subprocess.CompletedProcess. -/
structure CmdResult where
  exitcode : Int
  stdout : String
  stderr : String
deriving DecidableEq

/-- One element of the JSON array produced by the describe-instances query
with the query template of deploy.py line 31: field i is the instance id,
field a is the CPU architecture. -/
structure DescObj where
  i : String
  a : String
deriving DecidableEq

/-- Parsed command-line arguments of deploy.py.  include_files is none when
the --include flag is absent (argparse default for nargs="*" is None) and
some l when the flag is given with the list l of values. -/
structure Args where
  hostname : String
  include_files : Option (List String)
  modelPath : String
  startStopInstance : Bool
deriving DecidableEq

/-- Environment: the outcomes of the external commands the script may run.
describeOut models the result of json.loads applied to the stdout of the
describe-instances query: Except.error when that text is not a JSON array
(for instance empty because the aws CLI failed), Except.ok with the parsed
array otherwise.  start_elapsed models the elapsed-seconds text interpolated
into the start-done print (a wall-clock value external to the logic). -/
structure Env where
  describeRes : CmdResult
  describeOut : Except Unit (List DescObj)
  startRes : CmdResult
  rsyncRes : String → String → CmdResult
  sshRes : CmdResult
  stopRes : CmdResult
  start_elapsed : String

/-- Replace the describe-instances parse result of an environment. -/
def Env.setDescribeOut (e : Env) (o : Except Unit (List DescObj)) : Env :=
  ⟨e.describeRes, o, e.startRes, e.rsyncRes, e.sshRes, e.stopRes, e.start_elapsed⟩

/-- The external commands deploy.py issues, one constructor per call site.
describe, startWait and stopWait are aws CLI shell commands; rsyncArgv is
the argv-list rsync invocation; sshHeredoc is the ssh heredoc shell script. -/
inductive Cmd where
  | describe (hostname : String)
  | startWait (instance_id : String)
  | stopWait (instance_id : String)
  | rsyncArgv (src dest : String)
  | sshHeredoc (script : String)
deriving DecidableEq

/-- The exact shell text of deploy.py line 31 for a hostname. -/
def describeCmdText (hostname : String) : String :=
  "aws ec2 describe-instances --filter \x27Name=tag:Name,Values=" ++ hostname ++
  "\x27 --query \x27Reservations[].Instances[].\x7bi:InstanceId,a:Architecture\x7d\x27"

/-- The exact shell text of deploy.py line 40 for an instance id. -/
def startCmdText (instance_id : String) : String :=
  "aws ec2 start-instances --instance-ids " ++ instance_id ++
  " && aws ec2 wait instance-running --instance-ids " ++ instance_id

/-- The exact shell text of deploy.py line 74 for an instance id. -/
def stopCmdText (instance_id : String) : String :=
  "aws ec2 stop-instances --instance-ids " ++ instance_id ++
  " && aws ec2 wait instance-stopped --instance-ids " ++ instance_id

/-- The constant part of the ssh heredoc script of deploy.py lines 60-67,
everything after the hostname. -/
def sshScriptBody : String :=
  " -t << EOL\nsudo su -\nmkdir -p /usr/local/bot\nmv /home/ec2-user/* /usr/local/bot/\ncrontab /usr/local/bot/cron-settings.crontab\nEOL\n"

/-- The full ssh heredoc script of deploy.py lines 60-67 for a hostname. -/
def sshCmds (hostname : String) : String :=
  "ssh " ++ hostname ++ sshScriptBody

/-- The shell text of a command when it is run with shell=True, none for the
argv-list rsync invocation. -/
def Cmd.shellText : Cmd → Option String
  | .describe h => some (describeCmdText h)
  | .startWait i => some (startCmdText i)
  | .stopWait i => some (stopCmdText i)
  | .rsyncArgv _ _ => none
  | .sshHeredoc s => some s

/-- The argv list of the rsync invocation of deploy.py line 6, none for the
shell=True commands. -/
def Cmd.argvList : Cmd → Option (List String)
  | .rsyncArgv src dest => some ["rsync", "-uvz", src, dest]
  | _ => none

/-- An observable event: a print to stdout or an issued external command. -/
inductive Event where
  | print (s : String)
  | cmd (c : Cmd)
deriving DecidableEq

/-- The unhandled Python faults the script can raise: a JSONDecodeError from
json.loads on line 33, an IndexError from indexing the empty array on
line 33, a KeyError from the ARCH_TO_TARGET lookup on line 35, a TypeError
from the membership test against None on line 44. -/
inductive Fault where
  | jsonDecode
  | indexError
  | keyError
  | typeError
deriving DecidableEq

/-- os.path.basename as used by deploy.py line 5: the part after the last
slash. -/
def basename (s : String) : String :=
  (s.splitOn "/").getLastD ""

/-- The rsync helper of deploy.py lines 4-8: print a header, issue the rsync
command, print its captured stdout and stderr. -/
def rsync (env : Env) (src dest : String) : List Event :=
  [Event.print ("rsync " ++ basename src ++ ":"),
   Event.cmd (Cmd.rsyncArgv src dest),
   Event.print (env.rsyncRes src dest).stdout,
   Event.print (env.rsyncRes src dest).stderr]

/-- The architecture-to-build-target table of deploy.py lines 10-13, as a
lookup returning none exactly when the Python dict lookup raises KeyError. -/
def ARCH_TO_TARGET (a : String) : Option String :=
  if a = "x86_64" then some "x86_64-unknown-linux-gnu"
  else if a = "arm64" then some "aarch64-unknown-linux-gnu"
  else none

/-- The main block of deploy.py lines 15-75: the trace of events of one
invocation under the given arguments and environment, together with the
fault that aborts it, if any.  Events already emitted before a fault are
kept in the trace. -/
def deployBot (args : Args) (env : Env) : List Event × Option Fault :=
  let hostname := args.hostname
  let ev0 : List Event :=
    [Event.print ("hostname: " ++ hostname),
     Event.cmd (Cmd.describe hostname),
     Event.print env.describeRes.stderr]
  match env.describeOut with
  | .error _ => (ev0, some Fault.jsonDecode)
  | .ok [] => (ev0, some Fault.indexError)
  | .ok (obj :: _) =>
    let instance_id := obj.i
    match ARCH_TO_TARGET obj.a with
    | none => (ev0, some Fault.keyError)
    | some target_triple =>
      let ev1 : List Event :=
        if args.startStopInstance then
          [Event.print ("start instance. instance_id: " ++ instance_id),
           Event.cmd (Cmd.startWait instance_id),
           Event.print (env.startRes.stdout ++ "\n" ++ env.startRes.stderr),
           Event.print ("start instance done. " ++ env.start_elapsed ++ " sec")]
        else []
      match args.include_files with
      | none => (ev0 ++ ev1, some Fault.typeError)
      | some inc =>
        let evBot : List Event :=
          if "bot" ∈ inc then
            Event.print ("target_triple: " ++ target_triple) ::
              rsync env ("target/" ++ target_triple ++ "/release/bot") (hostname ++ ":~/")
          else [Event.print "skip bot"]
        let evModel : List Event :=
          if "model" ∈ inc then rsync env args.modelPath (hostname ++ ":~/")
          else [Event.print "skip model"]
        let evConfig : List Event :=
          if "config" ∈ inc then
            rsync env "config.bot.yaml" (hostname ++ ":~/") ++
            rsync env "config.yaml" (hostname ++ ":~/") ++
            rsync env "cron-settings.crontab" (hostname ++ ":~/")
          else [Event.print "skip config"]
        let evSsh : List Event :=
          [Event.cmd (Cmd.sshHeredoc (sshCmds hostname)),
           Event.print env.sshRes.stdout,
           Event.print env.sshRes.stderr]
        let evStop : List Event :=
          if args.startStopInstance then
            [Event.print "stop instance",
             Event.cmd (Cmd.stopWait instance_id),
             Event.print (env.stopRes.stdout ++ "\n" ++ env.stopRes.stderr)]
          else []
        (ev0 ++ ev1 ++ evBot ++ evModel ++ evConfig ++ evSsh ++ evStop, none)

/-- Whether an event is an issued rsync transfer. -/
def isRsyncEvent : Event → Bool
  | .cmd (.rsyncArgv _ _) => true
  | _ => false

/-- Whether an event is an issued aws CLI call (describe, start or stop). -/
def isCloudEvent : Event → Bool
  | .cmd (.describe _) => true
  | .cmd (.startWait _) => true
  | .cmd (.stopWait _) => true
  | _ => false

/-- Whether an event is the describe-instances query. -/
def isDescribeEvent : Event → Bool
  | .cmd (.describe _) => true
  | _ => false

/-- Whether an event is the start-and-wait command. -/
def isStartEvent : Event → Bool
  | .cmd (.startWait _) => true
  | _ => false

/-- Whether an event is the stop-and-wait command. -/
def isStopEvent : Event → Bool
  | .cmd (.stopWait _) => true
  | _ => false

/-- Whether an event is the ssh remote-shell invocation. -/
def isSshEvent : Event → Bool
  | .cmd (.sshHeredoc _) => true
  | _ => false

/-- The (source, destination) pairs of the rsync transfers in a trace, in
order. -/
def rsyncJobs (t : List Event) : List (String × String) :=
  t.filterMap fun e =>
    match e with
    | .cmd (.rsyncArgv s d) => some (s, d)
    | _ => none

/-- The issued commands of a trace, prints dropped. -/
def cmdsOf (t : List Event) : List Cmd :=
  t.filterMap fun e =>
    match e with
    | .cmd c => some c
    | _ => none

/-- A string contains a substring. -/
def strContains (s pat : String) : Prop :=
  ∃ a b, s = a ++ (pat ++ b)

/-- A command result with exit status zero and empty output. -/
def okRes : CmdResult := ⟨0, "", ""⟩

/-- An environment in which every command succeeds quietly and the describe
query returns one x86_64 instance. -/
def envGood : Env :=
  ⟨okRes, Except.ok [⟨"i-0abc", "x86_64"⟩], okRes, fun _ _ => okRes, okRes, okRes, "0"⟩

/-- The end-to-end scenario arguments: include bot and config, hostname h1,
lifecycle flag unset, default model path. -/
def argsScenario : Args :=
  ⟨"h1", some ["bot", "config"], "model.zst", false⟩

/-- Arguments selecting all three groups with the lifecycle flag set. -/
def argsAll : Args := ⟨"bot4", some ["bot", "model", "config"], "model.zst", true⟩

/-- An environment in which the describe query fails: nonzero exit status,
empty stdout (which json.loads cannot parse), an error message on stderr. -/
def envBadDescribe : Env :=
  ⟨⟨1, "", "Unable to locate credentials"⟩, Except.error (), okRes, fun _ _ => okRes,
    okRes, okRes, "0"⟩

/-- The full trace of a run that reaches the transfer phase: describe query
parses to a nonempty array, architecture is known, include flag present. -/
theorem deployBot_run (args : Args) (env : Env) (obj : DescObj) (rest : List DescObj)
    (tt : String) (inc : List String)
    (hd : env.describeOut = Except.ok (obj :: rest))
    (ha : ARCH_TO_TARGET obj.a = some tt)
    (hi : args.include_files = some inc) :
    deployBot args env =
      ([Event.print ("hostname: " ++ args.hostname),
        Event.cmd (Cmd.describe args.hostname),
        Event.print env.describeRes.stderr] ++
       (if args.startStopInstance then
          [Event.print ("start instance. instance_id: " ++ obj.i),
           Event.cmd (Cmd.startWait obj.i),
           Event.print (env.startRes.stdout ++ "\n" ++ env.startRes.stderr),
           Event.print ("start instance done. " ++ env.start_elapsed ++ " sec")]
        else []) ++
       (if "bot" ∈ inc then
          Event.print ("target_triple: " ++ tt) ::
            rsync env ("target/" ++ tt ++ "/release/bot") (args.hostname ++ ":~/")
        else [Event.print "skip bot"]) ++
       (if "model" ∈ inc then rsync env args.modelPath (args.hostname ++ ":~/")
        else [Event.print "skip model"]) ++
       (if "config" ∈ inc then
          rsync env "config.bot.yaml" (args.hostname ++ ":~/") ++
          rsync env "config.yaml" (args.hostname ++ ":~/") ++
          rsync env "cron-settings.crontab" (args.hostname ++ ":~/")
        else [Event.print "skip config"]) ++
       [Event.cmd (Cmd.sshHeredoc (sshCmds args.hostname)),
        Event.print env.sshRes.stdout,
        Event.print env.sshRes.stderr] ++
       (if args.startStopInstance then
          [Event.print "stop instance",
           Event.cmd (Cmd.stopWait obj.i),
           Event.print (env.stopRes.stdout ++ "\n" ++ env.stopRes.stderr)]
        else []), none) := by
  simp [deployBot, hd, ha, hi]

@[simp] theorem isRsyncEvent_print (s : String) : isRsyncEvent (Event.print s) = false := rfl
@[simp] theorem isCloudEvent_print (s : String) : isCloudEvent (Event.print s) = false := rfl
@[simp] theorem isStartEvent_print (s : String) : isStartEvent (Event.print s) = false := rfl
@[simp] theorem isStopEvent_print (s : String) : isStopEvent (Event.print s) = false := rfl
@[simp] theorem isSshEvent_print (s : String) : isSshEvent (Event.print s) = false := rfl

/-- C4: the architecture table maps x86_64 and arm64 to the two gnu triples
and fails as a lookup (KeyError fault in the main block) on any other
architecture value. -/
theorem C4_arch_table :
    ARCH_TO_TARGET "x86_64" = some "x86_64-unknown-linux-gnu" ∧
    ARCH_TO_TARGET "arm64" = some "aarch64-unknown-linux-gnu" ∧
    (∀ a, a ≠ "x86_64" → a ≠ "arm64" → ARCH_TO_TARGET a = none) ∧
    (∀ args env obj rest, env.describeOut = Except.ok (obj :: rest) →
      ARCH_TO_TARGET obj.a = none → (deployBot args env).2 = some Fault.keyError) := by
  refine ⟨rfl, rfl, ?_, ?_⟩
  · intro a h1 h2
    simp [ARCH_TO_TARGET, h1, h2]
  · intro args env obj rest hd ha
    simp [deployBot, hd, ha]

theorem C4_witness :
    ARCH_TO_TARGET "mips" = none ∧
    (deployBot argsScenario (envGood.setDescribeOut (Except.ok [⟨"i-0abc", "mips"⟩]))).2 =
      some Fault.keyError := by
  refine ⟨C4_arch_table.2.2.1 "mips" (by decide) (by decide), ?_⟩
  exact C4_arch_table.2.2.2 argsScenario _ ⟨"i-0abc", "mips"⟩ [] rfl (by decide)

/-- C6: a describe query parsing to the empty array faults with the
IndexError before any start command, transfer or remote shell is issued,
and when the array is nonempty only its first element is ever consulted. -/
theorem C6_first_instance :
    (∀ args env, env.describeOut = Except.ok [] →
      (deployBot args env).2 = some Fault.indexError ∧
      (deployBot args env).1.countP isStartEvent = 0 ∧
      (deployBot args env).1.countP isRsyncEvent = 0 ∧
      (deployBot args env).1.countP isSshEvent = 0) ∧
    (∀ (args : Args) (env : Env) (x : DescObj) (rest : List DescObj),
      deployBot args (env.setDescribeOut (Except.ok (x :: rest))) =
        deployBot args (env.setDescribeOut (Except.ok [x]))) := by
  constructor
  · intro args env h
    simp [deployBot, h, isStartEvent, isRsyncEvent, isSshEvent]
  · intro args env x rest
    rfl

theorem C6_witness :
    (deployBot argsScenario (envGood.setDescribeOut (Except.ok []))).2 = some Fault.indexError ∧
    (deployBot argsScenario (envGood.setDescribeOut (Except.ok []))).1.countP isStartEvent = 0 ∧
    (deployBot argsScenario (envGood.setDescribeOut (Except.ok []))).1.countP isRsyncEvent = 0 ∧
    (deployBot argsScenario (envGood.setDescribeOut (Except.ok []))).1.countP isSshEvent = 0 :=
  C6_first_instance.1 argsScenario (envGood.setDescribeOut (Except.ok [])) rfl

/-- Helper: a pattern shown inside the constant body occurs in any string
extending that body on the left. -/
theorem strContains_append_left (x pre pat post body : String)
    (hb : body = pre ++ (pat ++ post)) : strContains (x ++ body) pat :=
  ⟨x ++ pre, post, by rw [hb, ← String.append_assoc]⟩

/-- C8: every ssh remote-shell invocation in any run carries exactly the
fixed heredoc template instantiated at the hostname, and that template
contains the mkdir, the home-directory move and the crontab installation. -/
theorem C8_ssh_script :
    (∀ (args : Args) (env : Env) (s : String),
      Event.cmd (Cmd.sshHeredoc s) ∈ (deployBot args env).1 →
      s = sshCmds args.hostname) ∧
    (∀ h, strContains (sshCmds h) "mkdir -p /usr/local/bot" ∧
      strContains (sshCmds h) "mv /home/ec2-user/* /usr/local/bot/" ∧
      strContains (sshCmds h) "crontab /usr/local/bot/cron-settings.crontab") := by
  constructor
  · intro args env s hmem
    rcases hdo : env.describeOut with u | l
    · simp [deployBot, hdo] at hmem
    · rcases l with _ | ⟨obj, rest⟩
      · simp [deployBot, hdo] at hmem
      · rcases harch : ARCH_TO_TARGET obj.a with _ | tt
        · simp [deployBot, hdo, harch] at hmem
        · rcases hinc : args.include_files with _ | inc
          · by_cases hss : args.startStopInstance <;>
              simp [deployBot, hdo, harch, hinc, hss] at hmem
          · rw [deployBot_run args env obj rest tt inc hdo harch hinc] at hmem
            by_cases hb : "bot" ∈ inc <;> by_cases hm : "model" ∈ inc <;>
              by_cases hc : "config" ∈ inc <;> by_cases hss : args.startStopInstance <;>
              simp [hb, hm, hc, hss, rsync] at hmem <;> exact hmem
  · intro h
    exact ⟨strContains_append_left ("ssh " ++ h) " -t << EOL\nsudo su -\n"
        "mkdir -p /usr/local/bot"
        "\nmv /home/ec2-user/* /usr/local/bot/\ncrontab /usr/local/bot/cron-settings.crontab\nEOL\n"
        sshScriptBody (by decide),
      strContains_append_left ("ssh " ++ h) " -t << EOL\nsudo su -\nmkdir -p /usr/local/bot\n"
        "mv /home/ec2-user/* /usr/local/bot/"
        "\ncrontab /usr/local/bot/cron-settings.crontab\nEOL\n"
        sshScriptBody (by decide),
      strContains_append_left ("ssh " ++ h)
        " -t << EOL\nsudo su -\nmkdir -p /usr/local/bot\nmv /home/ec2-user/* /usr/local/bot/\n"
        "crontab /usr/local/bot/cron-settings.crontab" "\nEOL\n"
        sshScriptBody (by decide)⟩

theorem C8_witness :
    (Event.cmd (Cmd.sshHeredoc (sshCmds "h1")) ∈ (deployBot argsScenario envGood).1 ∧
      sshCmds "h1" = sshCmds argsScenario.hostname) ∧
    strContains (sshCmds "h1") "mkdir -p /usr/local/bot" :=
  ⟨⟨by decide, C8_ssh_script.1 argsScenario envGood (sshCmds "h1") (by decide)⟩,
    (C8_ssh_script.2 "h1").1⟩

/-- C10: the remote relocation always moves from the fixed path
/home/ec2-user/* regardless of hostname, while every rsync transfer in any
run delivers into hostname:~/. -/
theorem C10_move_source :
    (∀ h, strContains (sshCmds h) "mv /home/ec2-user/* /usr/local/bot/") ∧
    (∀ (args : Args) (env : Env) (s d : String),
      (s, d) ∈ rsyncJobs (deployBot args env).1 → d = args.hostname ++ ":~/") := by
  constructor
  · intro h
    exact strContains_append_left ("ssh " ++ h) " -t << EOL\nsudo su -\nmkdir -p /usr/local/bot\n"
      "mv /home/ec2-user/* /usr/local/bot/"
      "\ncrontab /usr/local/bot/cron-settings.crontab\nEOL\n"
      sshScriptBody (by decide)
  · intro args env s d hmem
    rcases hdo : env.describeOut with u | l
    · simp [deployBot, hdo, rsyncJobs] at hmem
    · rcases l with _ | ⟨obj, rest⟩
      · simp [deployBot, hdo, rsyncJobs] at hmem
      · rcases harch : ARCH_TO_TARGET obj.a with _ | tt
        · simp [deployBot, hdo, harch, rsyncJobs] at hmem
        · rcases hinc : args.include_files with _ | inc
          · by_cases hss : args.startStopInstance <;>
              simp [deployBot, hdo, harch, hinc, hss, rsyncJobs] at hmem
          · rw [deployBot_run args env obj rest tt inc hdo harch hinc] at hmem
            by_cases hb : "bot" ∈ inc <;> by_cases hm : "model" ∈ inc <;>
              by_cases hc : "config" ∈ inc <;> by_cases hss : args.startStopInstance <;>
              simp [hb, hm, hc, hss, rsync, rsyncJobs] at hmem <;> tauto

theorem C10_witness :
    (("config.yaml", "h1:~/") ∈ rsyncJobs (deployBot argsScenario envGood).1) ∧
    ("h1:~/" : String) = argsScenario.hostname ++ ":~/" :=
  ⟨by decide, C10_move_source.2 argsScenario envGood "config.yaml" "h1:~/" (by decide)⟩

/-- C1 (amended): the describe-instances query is issued on every
invocation, whatever the arguments and environment; with the lifecycle flag
unset it is the only cloud API call of the run. -/
theorem C1_describe_always :
    ∀ (args : Args) (env : Env),
      Event.cmd (Cmd.describe args.hostname) ∈ (deployBot args env).1 ∧
      (args.startStopInstance = false →
        (deployBot args env).1.countP isCloudEvent = 1) := by
  intro args env
  rcases hdo : env.describeOut with u | l
  · simp [deployBot, hdo, isCloudEvent]
  · rcases l with _ | ⟨obj, rest⟩
    · simp [deployBot, hdo, isCloudEvent]
    · rcases harch : ARCH_TO_TARGET obj.a with _ | tt
      · simp [deployBot, hdo, harch, isCloudEvent]
      · rcases hinc : args.include_files with _ | inc
        · by_cases hss : args.startStopInstance <;>
            simp [deployBot, hdo, harch, hinc, hss, isCloudEvent]
        · rw [deployBot_run args env obj rest tt inc hdo harch hinc]
          by_cases hb : "bot" ∈ inc <;> by_cases hm : "model" ∈ inc <;>
            by_cases hc : "config" ∈ inc <;> by_cases hss : args.startStopInstance <;>
            simp [hb, hm, hc, hss, rsync, isCloudEvent]

/-- C1 counterexample: in the end-to-end scenario (include bot and config,
hostname h1, lifecycle flag unset) the run does issue a cloud API call,
namely the describe-instances query. -/
theorem C1_counterexample :
    (deployBot argsScenario envGood).1.countP isCloudEvent ≠ 0 ∧
    (deployBot argsScenario envGood).1.countP isDescribeEvent = 1 := by
  decide

theorem C1_witness :
    Event.cmd (Cmd.describe "bot4") ∈ (deployBot ⟨"bot4", none, "model.zst", false⟩ envGood).1 ∧
    (deployBot ⟨"bot4", none, "model.zst", false⟩ envGood).1.countP isCloudEvent = 1 :=
  ⟨(C1_describe_always ⟨"bot4", none, "model.zst", false⟩ envGood).1,
    (C1_describe_always ⟨"bot4", none, "model.zst", false⟩ envGood).2 rfl⟩


/-- C2 (amended): the exit status of a command is never consulted: the
command sequence and the fault of a run depend only on the arguments and on
whether the describe stdout parses, not on any other command outcome. -/
theorem C2_exit_status_ignored :
    ∀ (args : Args) (e1 e2 : Env), e1.describeOut = e2.describeOut →
      cmdsOf (deployBot args e1).1 = cmdsOf (deployBot args e2).1 ∧
      (deployBot args e1).2 = (deployBot args e2).2 := by
  intro args e1 e2 h
  rcases hdo : e2.describeOut with u | l
  all_goals have h1 := h.trans hdo
  · simp [deployBot, hdo, h1, cmdsOf]
  · rcases l with _ | ⟨obj, rest⟩
    · simp [deployBot, hdo, h1, cmdsOf]
    · rcases harch : ARCH_TO_TARGET obj.a with _ | tt
      · simp [deployBot, hdo, h1, harch, cmdsOf]
      · rcases hinc : args.include_files with _ | inc
        · by_cases hss : args.startStopInstance <;>
            simp [deployBot, hdo, h1, harch, hinc, hss, cmdsOf]
        · rw [deployBot_run args e1 obj rest tt inc h1 harch hinc,
            deployBot_run args e2 obj rest tt inc hdo harch hinc]
          by_cases hb : "bot" ∈ inc <;> by_cases hm : "model" ∈ inc <;>
            by_cases hc : "config" ∈ inc <;> by_cases hss : args.startStopInstance <;>
            simp [hb, hm, hc, hss, rsync, cmdsOf]

/-- C2 counterexample: with all groups selected and the lifecycle flag set,
a failed describe-instances command (exit status 1, stdout unparsable)
aborts the run with an unhandled fault: no rsync, no start, no ssh and no
stop command is ever issued, so the remaining sequence does not run. -/
theorem C2_counterexample :
    (deployBot argsAll envBadDescribe).2 = some Fault.jsonDecode ∧
    (deployBot argsAll envBadDescribe).1.countP isRsyncEvent = 0 ∧
    (deployBot argsAll envBadDescribe).1.countP isStartEvent = 0 ∧
    (deployBot argsAll envBadDescribe).1.countP isSshEvent = 0 ∧
    (deployBot argsAll envBadDescribe).1.countP isStopEvent = 0 := by
  decide

theorem C2_witness :
    cmdsOf (deployBot argsAll envGood).1 =
      cmdsOf (deployBot argsAll (envGood.setDescribeOut envGood.describeOut)).1 ∧
    (deployBot argsAll envGood).2 =
      (deployBot argsAll (envGood.setDescribeOut envGood.describeOut)).2 :=
  C2_exit_status_ignored argsAll envGood (envGood.setDescribeOut envGood.describeOut) rfl

/-- C3: in any run that reaches the transfer phase, the rsync jobs are
exactly those of the selected groups (one bot binary parameterized by the
build target, one model path, three fixed config and crontab files) and a
skip message is printed for every group not selected. -/
theorem C3_include_selection (args : Args) (env : Env) (obj : DescObj)
    (rest : List DescObj) (tt : String) (inc : List String)
    (hd : env.describeOut = Except.ok (obj :: rest))
    (ha : ARCH_TO_TARGET obj.a = some tt)
    (hi : args.include_files = some inc) :
    rsyncJobs (deployBot args env).1 =
      ((if "bot" ∈ inc then
          [("target/" ++ tt ++ "/release/bot", args.hostname ++ ":~/")] else []) ++
       (if "model" ∈ inc then [(args.modelPath, args.hostname ++ ":~/")] else []) ++
       (if "config" ∈ inc then
          [("config.bot.yaml", args.hostname ++ ":~/"),
           ("config.yaml", args.hostname ++ ":~/"),
           ("cron-settings.crontab", args.hostname ++ ":~/")] else [])) ∧
    ("bot" ∉ inc → Event.print "skip bot" ∈ (deployBot args env).1) ∧
    ("model" ∉ inc → Event.print "skip model" ∈ (deployBot args env).1) ∧
    ("config" ∉ inc → Event.print "skip config" ∈ (deployBot args env).1) := by
  rw [deployBot_run args env obj rest tt inc hd ha hi]
  by_cases hb : "bot" ∈ inc <;> by_cases hm : "model" ∈ inc <;>
    by_cases hc : "config" ∈ inc <;> by_cases hss : args.startStopInstance <;>
    simp [hb, hm, hc, hss, rsync, rsyncJobs]

theorem C3_witness :
    rsyncJobs (deployBot argsScenario envGood).1 =
      [("target/x86_64-unknown-linux-gnu/release/bot", "h1:~/"),
       ("config.bot.yaml", "h1:~/"), ("config.yaml", "h1:~/"),
       ("cron-settings.crontab", "h1:~/")] ∧
    Event.print "skip model" ∈ (deployBot argsScenario envGood).1 := by
  have h := C3_include_selection argsScenario envGood ⟨"i-0abc", "x86_64"⟩ []
    "x86_64-unknown-linux-gnu" ["bot", "config"] rfl rfl rfl
  exact ⟨h.1.trans (by decide), h.2.2.1 (by decide)⟩

/-- C5 (amended): an absent include flag (argparse value None) always ends
the run in an unhandled fault with no transfer issued; when the describe
query parsed and the architecture is known, that fault is the TypeError of
the membership test against None. -/
theorem C5_absent_include_faults :
    ∀ (args : Args) (env : Env), args.include_files = none →
      ((deployBot args env).2.isSome = true ∧
       rsyncJobs (deployBot args env).1 = [] ∧
       (∀ obj rest tt, env.describeOut = Except.ok (obj :: rest) →
         ARCH_TO_TARGET obj.a = some tt →
         (deployBot args env).2 = some Fault.typeError)) := by
  intro args env hinc
  rcases hdo : env.describeOut with u | l
  · simp [deployBot, hdo, rsyncJobs]
  · rcases l with _ | ⟨obj, rest⟩
    · simp [deployBot, hdo, rsyncJobs]
    · rcases harch : ARCH_TO_TARGET obj.a with _ | tt
      · simp [deployBot, hdo, harch, rsyncJobs]
        intro o r t ho hr
        subst ho
        simp [harch]
      · by_cases hss : args.startStopInstance <;>
          simp [deployBot, hdo, harch, hinc, hss, rsyncJobs]

/-- C5 counterexample: an empty include list (flag supplied with zero
values) does not fault: the run completes with no fault and no transfer,
contrary to the claim that an empty selection faults before any transfer. -/
theorem C5_counterexample :
    (deployBot ⟨"bot4", some [], "model.zst", false⟩ envGood).2 = none ∧
    rsyncJobs (deployBot ⟨"bot4", some [], "model.zst", false⟩ envGood).1 = [] := by
  decide

theorem C5_witness :
    (deployBot ⟨"bot4", none, "model.zst", false⟩ envGood).2.isSome = true ∧
    rsyncJobs (deployBot ⟨"bot4", none, "model.zst", false⟩ envGood).1 = [] ∧
    (deployBot ⟨"bot4", none, "model.zst", false⟩ envGood).2 = some Fault.typeError := by
  have h := C5_absent_include_faults ⟨"bot4", none, "model.zst", false⟩ envGood rfl
  exact ⟨h.1, h.2.1, h.2.2 ⟨"i-0abc", "x86_64"⟩ [] "x86_64-unknown-linux-gnu" rfl rfl⟩

/-- C9: an include flag supplied with zero values does not fault: in a run
whose describe query parsed with a known architecture, all three groups are
skipped with their skip messages, no transfer is issued, and the remote
shell step still runs. -/
theorem C9_empty_include_skips (args : Args) (env : Env) (obj : DescObj)
    (rest : List DescObj) (tt : String)
    (hd : env.describeOut = Except.ok (obj :: rest))
    (ha : ARCH_TO_TARGET obj.a = some tt)
    (hi : args.include_files = some []) :
    (deployBot args env).2 = none ∧
    rsyncJobs (deployBot args env).1 = [] ∧
    Event.print "skip bot" ∈ (deployBot args env).1 ∧
    Event.print "skip model" ∈ (deployBot args env).1 ∧
    Event.print "skip config" ∈ (deployBot args env).1 ∧
    Event.cmd (Cmd.sshHeredoc (sshCmds args.hostname)) ∈ (deployBot args env).1 := by
  rw [deployBot_run args env obj rest tt [] hd ha hi]
  by_cases hss : args.startStopInstance <;> simp [hss, rsyncJobs]

theorem C9_witness :
    (deployBot ⟨"bot4", some [], "model.zst", false⟩ envGood).2 = none ∧
    rsyncJobs (deployBot ⟨"bot4", some [], "model.zst", false⟩ envGood).1 = [] ∧
    Event.print "skip bot" ∈ (deployBot ⟨"bot4", some [], "model.zst", false⟩ envGood).1 ∧
    Event.print "skip model" ∈ (deployBot ⟨"bot4", some [], "model.zst", false⟩ envGood).1 ∧
    Event.print "skip config" ∈ (deployBot ⟨"bot4", some [], "model.zst", false⟩ envGood).1 ∧
    Event.cmd (Cmd.sshHeredoc (sshCmds "bot4")) ∈
      (deployBot ⟨"bot4", some [], "model.zst", false⟩ envGood).1 :=
  C9_empty_include_skips ⟨"bot4", some [], "model.zst", false⟩ envGood
    ⟨"i-0abc", "x86_64"⟩ [] "x86_64-unknown-linux-gnu" rfl rfl rfl

/-- C7: with the lifecycle flag set, a run that reaches the transfer phase
issues exactly one start-and-wait command, with no transfer before it, and
exactly one stop-and-wait command, with the remote shell invocation before
it; with the flag unset, no run issues a start or stop command. -/
theorem C7_lifecycle_ordering :
    (∀ (args : Args) (env : Env) (obj : DescObj) (rest : List DescObj)
      (tt : String) (inc : List String),
      env.describeOut = Except.ok (obj :: rest) →
      ARCH_TO_TARGET obj.a = some tt →
      args.include_files = some inc →
      args.startStopInstance = true →
      ((deployBot args env).1.countP isStartEvent = 1 ∧
       (((deployBot args env).1.takeWhile fun e => !isStartEvent e).countP
         isRsyncEvent = 0) ∧
       (deployBot args env).1.countP isStopEvent = 1 ∧
       (((deployBot args env).1.takeWhile fun e => !isStopEvent e).countP
         isSshEvent = 1))) ∧
    (∀ (args : Args) (env : Env), args.startStopInstance = false →
      (deployBot args env).1.countP isStartEvent = 0 ∧
      (deployBot args env).1.countP isStopEvent = 0) := by
  constructor
  · intro args env obj rest tt inc hd ha hi hss
    rw [deployBot_run args env obj rest tt inc hd ha hi]
    by_cases hb : "bot" ∈ inc <;> by_cases hm : "model" ∈ inc <;>
      by_cases hc : "config" ∈ inc <;>
      simp [hb, hm, hc, hss, rsync, isStartEvent, isStopEvent, isRsyncEvent,
        isSshEvent, List.takeWhile_cons]
  · intro args env hss
    rcases hdo : env.describeOut with u | l
    · simp [deployBot, hdo, isStartEvent, isStopEvent]
    · rcases l with _ | ⟨obj, rest⟩
      · simp [deployBot, hdo, isStartEvent, isStopEvent]
      · rcases harch : ARCH_TO_TARGET obj.a with _ | tt
        · simp [deployBot, hdo, harch, isStartEvent, isStopEvent]
        · rcases hinc : args.include_files with _ | inc
          · simp [deployBot, hdo, harch, hinc, hss, isStartEvent, isStopEvent]
          · rw [deployBot_run args env obj rest tt inc hdo harch hinc]
            by_cases hb : "bot" ∈ inc <;> by_cases hm : "model" ∈ inc <;>
              by_cases hc : "config" ∈ inc <;>
              simp [hb, hm, hc, hss, rsync, isStartEvent, isStopEvent]

theorem C7_witness :
    ((deployBot argsAll envGood).1.countP isStartEvent = 1 ∧
     (((deployBot argsAll envGood).1.takeWhile fun e => !isStartEvent e).countP
       isRsyncEvent = 0) ∧
     (deployBot argsAll envGood).1.countP isStopEvent = 1 ∧
     (((deployBot argsAll envGood).1.takeWhile fun e => !isStopEvent e).countP
       isSshEvent = 1)) ∧
    ((deployBot argsScenario envGood).1.countP isStartEvent = 0 ∧
     (deployBot argsScenario envGood).1.countP isStopEvent = 0) :=
  ⟨C7_lifecycle_ordering.1 argsAll envGood ⟨"i-0abc", "x86_64"⟩ []
      "x86_64-unknown-linux-gnu" ["bot", "model", "config"] rfl rfl rfl rfl,
    C7_lifecycle_ordering.2 argsScenario envGood rfl⟩
